import Mathlib

/-!
Shallow embedding of the docker-flow-swarm-listener route synchronizer
(bigip.go) and the main reconciliation loop, together with theorems
checking the natural-language specification against the code.

HTTP transport, the file system and the environment are modelled as
explicit oracle values supplied to each function; everything else is a
direct translation of the Go source.
-/

namespace DFSL

/-- Label key carrying the comma-separated path list (bigip.go, SERVICE_PATH_LABEL). -/
def SERVICE_PATH_LABEL : String := "com.df.servicePath"

/-- Default secret-file path (bigip.go, BIGIP_KEY_FILE). -/
def BIGIP_KEY_FILE : String := "/run/secrets/bigip-key"

/-- Data-group URL path fragment (bigip.go, DG_PATH). -/
def DG_PATH : String := "/mgmt/tm/ltm/data-group/internal/"

/-- One data-group record: a name (path) and data (backend pattern). Mirrors
the Go struct Record. -/
structure Record where
  name : String
  data : String
deriving DecidableEq, Repr

/-- The full external route table: a collection of records. Mirrors the Go
struct DataGroup. -/
structure DataGroup where
  records : List Record
deriving DecidableEq, Repr

/-- Outcome of one HTTP round trip as seen by the caller of Client.Do: either
a transport-level error, or a response carrying a status code and a body. -/
inductive HttpOutcome (α : Type) where
  | transportError
  | response (status : Nat) (body : α)
deriving DecidableEq, Repr

/-- Oracle for one updateDataGroup call: the result of its GET (the body is
the json.Unmarshal view: none means the body does not decode to a DataGroup)
and the result of its PUT (body kept as raw text, used only in error
messages by the Go code). -/
structure UpdateWorld where
  getResult : HttpOutcome (Option DataGroup)
  putResult : HttpOutcome String
deriving DecidableEq, Repr

/-- Translation of BigIp.getRecords: one record per non-empty path, with the
backend pattern as data. -/
def getRecords (paths : List String) (pattern : String) : List Record :=
  match paths with
  | [] => []
  | path :: rest =>
    if path.length > 0 then
      ⟨path, pattern⟩ :: getRecords rest pattern
    else
      getRecords rest pattern

/-- Translation of BigIp.containsRecord: membership by name only. -/
def containsRecord (target : List Record) (candidate : Record) : Bool :=
  match target with
  | [] => false
  | t :: rest => if t.name == candidate.name then true else containsRecord rest candidate

/-- Loop body of BigIp.removeRecords, with the accumulator made explicit
(the Go code appends into a reused slice). -/
def removeRecordsGo (acc : List Record) (fromRecs : List Record) (remove : List Record) :
    List Record :=
  match fromRecs with
  | [] => acc
  | r :: rest =>
    if containsRecord remove r then
      removeRecordsGo acc rest remove
    else
      removeRecordsGo (acc ++ [r]) rest remove

/-- Translation of BigIp.removeRecords. -/
def removeRecords (fromRecs : List Record) (remove : List Record) : List Record :=
  removeRecordsGo [] fromRecs remove

/-- Translation of BigIp.updateDataGroup over an UpdateWorld oracle. On
success it returns the DataGroup that was PUT back to the store; on failure
it returns the error message, mirroring the Go error returns. The Go code
checks the GET status against exactly http.StatusOK (200), decodes the body,
builds candidate records, appends or removes, then PUTs and again requires
exactly status 200. -/
def updateDataGroup (pattern : String) (w : UpdateWorld) (paths : List String)
    (remove : Bool) : Except String DataGroup :=
  match w.getResult with
  | .transportError => .error "ERROR: Unable to get details of data group from url"
  | .response status body =>
    if status == 200 then
      match body with
      | none => .error "ERROR: Unable to unmarshal response"
      | some dg =>
        let records := getRecords paths pattern
        let newRecords :=
          if remove then removeRecords dg.records records
          else dg.records ++ records
        match w.putResult with
        | .transportError => .error "ERROR: Unable to update data group at url"
        | .response pstatus pbody =>
          if pstatus != 200 then
            .error ("ERROR: Request returned status code " ++ toString pstatus ++ pbody)
          else
            .ok ⟨newRecords⟩
    else
      .error ("ERROR: Request returned status code " ++ toString status)

/-- A swarm service as AddRoutes reads it: its spec name and its label map
(an association list; Go map keys are unique, lookup is List.lookup). -/
structure SwarmService where
  name : String
  labels : List (String × String)
deriving DecidableEq, Repr

/-- The Route Cache BigIp.Services: a Go map from service name to path list,
modelled as a function into Option (the Go zero-map semantics). -/
abbrev RouteCache := String → Option (List String)

/-- The empty Route Cache (make(map[string][]string)). -/
def cacheEmpty : RouteCache := fun _ => none

/-- Go map assignment m[k] = v. -/
def cacheInsert (c : RouteCache) (k : String) (v : List String) : RouteCache :=
  fun n => if n == k then some v else c n

/-- Go map deletion delete(m, k). -/
def cacheErase (c : RouteCache) (k : String) : RouteCache :=
  fun n => if n == k then none else c n

/-- Result of one AddRoutes or RemoveRoutes call: the Route Cache afterwards,
the number of per-service errors collected (the Go call returns a non-nil
error iff this is positive), and the number of updateDataGroup invocations
performed (each one is one GET, plus one PUT when the GET succeeds). -/
structure BatchResult where
  cache : RouteCache
  errs : Nat
  calls : Nat

/-- Go strings.ToLower restricted to per-character lowering (the labels in
play are ASCII), written over the underlying character list so that it
evaluates by kernel reduction. -/
def strToLower (s : String) : String :=
  ⟨s.data.map Char.toLower⟩

/-- Go strings.Split(s, ",") on the underlying character list: n commas give
n + 1 segments, and the empty string gives one empty segment. -/
def splitCharList : List Char → List (List Char)
  | [] => [[]]
  | c :: rest =>
    if c == ',' then [] :: splitCharList rest
    else
      match splitCharList rest with
      | [] => [[c]]
      | l :: ls => (c :: l) :: ls

/-- Go strings.Split(s, ","). -/
def splitComma (s : String) : List String :=
  (splitCharList s.data).map (fun l => ⟨l⟩)

/-- The normalized path list AddRoutes computes from a label value:
strings.ToLower then strings.Split on commas. -/
def labelPaths (label : String) : List String :=
  splitComma (strToLower label)

/-- Loop body of BigIp.AddRoutes: for each service carrying the path label,
lower-case and comma-split the label, run updateDataGroup in append mode with
the oracle for the current call index, and on success store the paths in the
Route Cache under the service name; failures are collected and do not stop
the loop. Services without the label are skipped without a call. -/
def addRoutesGo (pattern : String) (ws : Nat → UpdateWorld) (i : Nat)
    (services : List SwarmService) (c : RouteCache) (errCount : Nat) : BatchResult :=
  match services with
  | [] => ⟨c, errCount, i⟩
  | s :: rest =>
    match List.lookup SERVICE_PATH_LABEL s.labels with
    | some label =>
      match updateDataGroup pattern (ws i) (labelPaths label) false with
      | .error _ => addRoutesGo pattern ws (i + 1) rest c (errCount + 1)
      | .ok _ => addRoutesGo pattern ws (i + 1) rest (cacheInsert c s.name (labelPaths label)) errCount
    | none => addRoutesGo pattern ws i rest c errCount

/-- Translation of BigIp.AddRoutes. The calls field of the result is the
number of Route Update Protocol cycles performed. -/
def AddRoutes (pattern : String) (ws : Nat → UpdateWorld) (services : List SwarmService)
    (c : RouteCache) : BatchResult :=
  addRoutesGo pattern ws 0 services c 0

/-- Loop body of BigIp.RemoveRoutes: for each input name present in the Route
Cache, run updateDataGroup in remove mode with the cached path list, and on
success delete the name from the cache; failures are collected and do not
stop the loop. Names absent from the cache are skipped without a call. -/
def removeRoutesGo (pattern : String) (ws : Nat → UpdateWorld) (i : Nat)
    (names : List String) (c : RouteCache) (errCount : Nat) : BatchResult :=
  match names with
  | [] => ⟨c, errCount, i⟩
  | s :: rest =>
    match c s with
    | some paths =>
      match updateDataGroup pattern (ws i) paths true with
      | .error _ => removeRoutesGo pattern ws (i + 1) rest c (errCount + 1)
      | .ok _ => removeRoutesGo pattern ws (i + 1) rest (cacheErase c s) errCount
    | none => removeRoutesGo pattern ws i rest c errCount

/-- Translation of BigIp.RemoveRoutes. -/
def RemoveRoutes (pattern : String) (ws : Nat → UpdateWorld) (names : List String)
    (c : RouteCache) : BatchResult :=
  removeRoutesGo pattern ws 0 names c 0

/-- Drop leading whitespace characters. -/
def dropLeadingWs : List Char → List Char
  | [] => []
  | c :: rest => if c.isWhitespace then dropLeadingWs rest else c :: rest

/-- Go strings.TrimSpace: the string with surrounding whitespace removed,
written over the character list so that it evaluates by kernel reduction. -/
def trimSpace (s : String) : String :=
  ⟨((dropLeadingWs s.data).reverse |> dropLeadingWs).reverse⟩

/-- The startup configuration document (the Go struct Config). -/
structure Config where
  host : String
  dataGroup : String
  poolPattern : String
deriving DecidableEq, Repr

/-- Oracle for process startup: the environment (os.Getenv, empty string for
unset variables), the file system (ioutil.ReadFile, none for a read error)
and the configuration HTTP GET (body as the json.Unmarshal view, none for an
undecodable document). -/
structure StartupWorld where
  env : String → String
  readFile : String → Option String
  httpGet : String → HttpOutcome (Option Config)

/-- The fields of a freshly constructed BigIp that the embedding tracks. -/
structure BigIpInit where
  url : String
  key : String
  services : RouteCache
  pattern : String

/-- Translation of readConfig: any transport error, non-200 status or
undecodable body panics (modelled as Except.error, the checkErr calls). -/
def readConfig (world : StartupWorld) (configApi : String) : Except String Config :=
  match world.httpGet configApi with
  | .transportError => .error "panic: config fetch failed"
  | .response status body =>
    if status != 200 then .error "panic: Config API returned a non 200 OK response"
    else
      match body with
      | none => .error "panic: config unmarshal failed"
      | some config => .ok config

/-- Translation of NewBigIp: read the secret file (panic on error), fetch the
configuration, build the data-group URL, trim the key, start with an empty
Route Cache. -/
def NewBigIp (world : StartupWorld) (configApi keyFile : String) : Except String BigIpInit :=
  match world.readFile keyFile with
  | none => .error "panic: unable to read key file"
  | some key =>
    match readConfig world configApi with
    | .error e => .error e
    | .ok config =>
      .ok ⟨config.host ++ DG_PATH ++ config.dataGroup, trimSpace key, cacheEmpty,
        config.poolPattern⟩

/-- Translation of NewBigIpFromEnv: DF_CONFIG_API is required (panic when
empty); DF_BIGIP_KEY_FILE defaults to BIGIP_KEY_FILE when empty. -/
def NewBigIpFromEnv (world : StartupWorld) : Except String BigIpInit :=
  let configApi := world.env "DF_CONFIG_API"
  if configApi.length == 0 then .error "panic: BigIp: Missing Config API Url"
  else
    let keyFile0 := world.env "DF_BIGIP_KEY_FILE"
    let keyFile := if keyFile0.length == 0 then BIGIP_KEY_FILE else keyFile0
    NewBigIp world configApi keyFile

/-- Observable events of one iteration of the main reconciliation loop, in
program order: collaborator invocations and metric calls. -/
inductive Event where
  | getServicesCall
  | getNewServicesCall
  | notifyCreateCall
  | addRoutesCall
  | getRemovedServicesCall
  | notifyRemoveCall
  | removeRoutesCall
  | recordError (label : String)
  | recordService (n : Nat)
deriving DecidableEq, Repr

/-- Oracle for one iteration of the main loop: outcomes of the external
collaborators (snapshot source, diff engine, notification dispatcher) and
the inputs and HTTP worlds for the two route-synchronizer calls. -/
structure IterationWorld where
  getServicesErr : Bool
  getNewServicesErr : Bool
  servicesCreateErr : Bool
  servicesRemoveErr : Bool
  newServices : List SwarmService
  removedServices : List String
  addWorlds : Nat → UpdateWorld
  removeWorlds : Nat → UpdateWorld
  cachedServicesCount : Nat

/-- One iteration of the main loop body (main in the listener entry point),
returning the Route Cache afterwards and the events emitted, in program
order: GetServices (error metered), GetNewServices (error metered),
ServicesCreate (error metered), AddRoutes with its returned error DISCARDED,
GetRemovedServices, ServicesRemove, RecordService, the ServicesRemove error
metered, then RemoveRoutes with its returned error DISCARDED. -/
def iteration (pattern : String) (w : IterationWorld) (c : RouteCache) :
    RouteCache × List Event :=
  let e1 : List Event :=
    [Event.getServicesCall] ++
      (if w.getServicesErr then [Event.recordError "GetServices"] else [])
  let e2 : List Event :=
    [Event.getNewServicesCall] ++
      (if w.getNewServicesErr then [Event.recordError "GetNewServices"] else [])
  let e3 : List Event :=
    [Event.notifyCreateCall] ++
      (if w.servicesCreateErr then [Event.recordError "ServicesCreate"] else [])
  let r1 := AddRoutes pattern w.addWorlds w.newServices c
  let e4 : List Event := [Event.addRoutesCall, Event.getRemovedServicesCall]
  let e5 : List Event :=
    [Event.notifyRemoveCall, Event.recordService w.cachedServicesCount] ++
      (if w.servicesRemoveErr then [Event.recordError "ServicesRemove"] else [])
  let r2 := RemoveRoutes pattern w.removeWorlds w.removedServices r1.cache
  let e6 : List Event := [Event.removeRoutesCall]
  (r2.cache, e1 ++ e2 ++ e3 ++ e4 ++ e5 ++ e6)

/-- Run the first fuel iterations of the main loop, concatenating the events. -/
def runIterations (pattern : String) (ws : Nat → IterationWorld) (k fuel : Nat)
    (c : RouteCache) : RouteCache × List Event :=
  match fuel with
  | 0 => (c, [])
  | fuel + 1 =>
    let r := iteration pattern (ws k) c
    let rest := runIterations pattern ws (k + 1) fuel r.1
    (rest.1, r.2 ++ rest.2)

/-- The guarded part of main: the iteration loop runs only when the
create-notification address is non-empty; otherwise nothing is executed.
The infinite loop is observed through the first fuel iterations. -/
def mainRun (pattern : String) (createServiceAddr : String) (ws : Nat → IterationWorld)
    (fuel : Nat) : RouteCache × List Event :=
  if createServiceAddr.length > 0 then
    runIterations pattern ws 0 fuel cacheEmpty
  else
    (cacheEmpty, [])

/-- Number of services in a batch that carry the path label: exactly those
trigger one updateDataGroup call each in AddRoutes. -/
def countLabeled : List SwarmService → Nat
  | [] => 0
  | s :: rest =>
    match List.lookup SERVICE_PATH_LABEL s.labels with
    | some _ => countLabeled rest + 1
    | none => countLabeled rest

/-- Some service named n carrying the path label has its updateDataGroup call
succeed during this AddRoutes batch (call indices threaded exactly as
addRoutesGo threads them). -/
def addBatchSucceedsFor (pattern : String) (ws : Nat → UpdateWorld) (i : Nat)
    (services : List SwarmService) (n : String) : Bool :=
  match services with
  | [] => false
  | s :: rest =>
    match List.lookup SERVICE_PATH_LABEL s.labels with
    | some label =>
      (s.name == n && (updateDataGroup pattern (ws i) (labelPaths label) false).isOk)
        || addBatchSucceedsFor pattern ws (i + 1) rest n
    | none => addBatchSucceedsFor pattern ws i rest n

/-- Some service carrying the path label has its updateDataGroup call fail
during this AddRoutes batch. -/
def addBatchFailExists (pattern : String) (ws : Nat → UpdateWorld) (i : Nat)
    (services : List SwarmService) : Bool :=
  match services with
  | [] => false
  | s :: rest =>
    match List.lookup SERVICE_PATH_LABEL s.labels with
    | some label =>
      !(updateDataGroup pattern (ws i) (labelPaths label) false).isOk
        || addBatchFailExists pattern ws (i + 1) rest
    | none => addBatchFailExists pattern ws i rest

/-- Some occurrence of the name n is present in the Route Cache when its turn
comes and has its updateDataGroup call succeed during this RemoveRoutes batch
(the cache is threaded exactly as removeRoutesGo threads it). -/
def removeBatchSucceedsFor (pattern : String) (ws : Nat → UpdateWorld) (i : Nat)
    (names : List String) (c : RouteCache) (n : String) : Bool :=
  match names with
  | [] => false
  | s :: rest =>
    match c s with
    | some paths =>
      match updateDataGroup pattern (ws i) paths true with
      | .ok _ => (s == n) || removeBatchSucceedsFor pattern ws (i + 1) rest (cacheErase c s) n
      | .error _ => removeBatchSucceedsFor pattern ws (i + 1) rest c n
    | none => removeBatchSucceedsFor pattern ws i rest c n

/-- Some name present in the Route Cache at its turn has its updateDataGroup
call fail during this RemoveRoutes batch. -/
def removeBatchFailExists (pattern : String) (ws : Nat → UpdateWorld) (i : Nat)
    (names : List String) (c : RouteCache) : Bool :=
  match names with
  | [] => false
  | s :: rest =>
    match c s with
    | some paths =>
      match updateDataGroup pattern (ws i) paths true with
      | .ok _ => removeBatchFailExists pattern ws (i + 1) rest (cacheErase c s)
      | .error _ => true || removeBatchFailExists pattern ws (i + 1) rest c
    | none => removeBatchFailExists pattern ws i rest c

/-- One call of the route-synchronizer public interface, with its HTTP
oracle. -/
inductive Op where
  | add (ws : Nat → UpdateWorld) (services : List SwarmService)
  | remove (ws : Nat → UpdateWorld) (names : List String)

/-- The Route Cache after one interface call. -/
def applyOp (pattern : String) (op : Op) (c : RouteCache) : RouteCache :=
  match op with
  | .add ws ss => (AddRoutes pattern ws ss c).cache
  | .remove ws ns => (RemoveRoutes pattern ws ns c).cache

/-- The Route Cache after a sequence of interface calls. -/
def runOps (pattern : String) (ops : List Op) (c : RouteCache) : RouteCache :=
  match ops with
  | [] => c
  | op :: rest => runOps pattern rest (applyOp pattern op c)

/-- This call is an AddRoutes that successfully completed the route update
for some service named n carrying the path label. -/
def opAddSuccess (pattern : String) (op : Op) (n : String) : Bool :=
  match op with
  | .add ws ss => addBatchSucceedsFor pattern ws 0 ss n
  | .remove _ _ => false

/-- This call is a RemoveRoutes that successfully completed the removal for
the name n, starting from the Route Cache c. -/
def opRemoveSuccess (pattern : String) (op : Op) (c : RouteCache) (n : String) : Bool :=
  match op with
  | .add _ _ => false
  | .remove ws ns => removeBatchSucceedsFor pattern ws 0 ns c n

/-- No call in the sequence successfully completes a removal for the name n
(cache threaded through the run). -/
def noRemoveSuccess (pattern : String) (ops : List Op) (c : RouteCache) (n : String) : Bool :=
  match ops with
  | [] => true
  | op :: rest =>
    !(opRemoveSuccess pattern op c n)
      && noRemoveSuccess pattern rest (applyOp pattern op c) n

/-- Some call in the sequence is an AddRoutes that successfully completed the
route update for a service named n carrying the path label, and no later call
successfully completed a removal for n. -/
def addedAndNotRemoved (pattern : String) (ops : List Op) (c : RouteCache) (n : String) : Bool :=
  match ops with
  | [] => false
  | op :: rest =>
    (opAddSuccess pattern op n && noRemoveSuccess pattern rest (applyOp pattern op c) n)
      || addedAndNotRemoved pattern rest (applyOp pattern op c) n

/-- Is this event an error-metric call. -/
def isRecordError : Event → Bool
  | .recordError _ => true
  | _ => false

/-- The stored key of a constructed BigIp, when construction succeeded. -/
def keyOf : Except String BigIpInit → Option String
  | .ok b => some b.key
  | .error _ => none

/-- An HTTP oracle whose GET returns an empty record collection with status
200 and whose PUT returns status 200: one fully successful protocol cycle. -/
def okWorld : UpdateWorld :=
  ⟨.response 200 (some ⟨[]⟩), .response 200 ""⟩

/-- An HTTP oracle whose GET fails at the transport level. -/
def failWorld : UpdateWorld :=
  ⟨.transportError, .transportError⟩

/-- A concrete startup environment: DF_CONFIG_API set, DF_BIGIP_KEY_FILE
unset, the default secret file readable, the configuration GET succeeding. -/
def exampleStartup : StartupWorld :=
  ⟨fun s => if s == "DF_CONFIG_API" then "http://cfg" else "",
   fun p => if p == BIGIP_KEY_FILE then some "  key-value  " else none,
   fun _ => .response 200 (some ⟨"host", "dg", "pat"⟩)⟩

/-- A concrete iteration in which all external collaborators succeed but the
route-store update for the one new labeled service fails. -/
def exampleIteration : IterationWorld :=
  ⟨false, false, false, false, [⟨"svc", [(SERVICE_PATH_LABEL, "/a")]⟩], [],
   fun _ => failWorld, fun _ => failWorld, 0⟩


theorem addRoutesGo_cache_isSome (pattern : String) (ws : Nat → UpdateWorld) (n : String) :
    ∀ (ss : List SwarmService) (i : Nat) (c : RouteCache) (e : Nat),
      (((addRoutesGo pattern ws i ss c e).cache n).isSome)
        = (addBatchSucceedsFor pattern ws i ss n || (c n).isSome) := by
  intro ss
  induction ss with
  | nil => intro i c e; simp [addRoutesGo, addBatchSucceedsFor]
  | cons s rest ih =>
    intro i c e
    simp only [addRoutesGo, addBatchSucceedsFor]
    cases hl : List.lookup SERVICE_PATH_LABEL s.labels with
    | none => simp only [hl]; exact ih i c e
    | some label =>
      simp only [hl]
      cases hu : updateDataGroup pattern (ws i) (labelPaths label) false with
      | error msg =>
        simp only [hu, Except.isOk, Except.toBool, Bool.and_false, Bool.false_or]
        exact ih (i + 1) c (e + 1)
      | ok dg =>
        simp only [hu, Except.isOk, Except.toBool, Bool.and_true]
        rw [ih]
        by_cases hn : n = s.name
        · subst hn
          simp [cacheInsert]
        · have h1 : (n == s.name) = false := by simp [hn]
          have h2 : (s.name == n) = false := by simp [Ne.symm hn]
          simp [cacheInsert, h1, h2, Bool.or_assoc]

theorem removeRoutesGo_cache_isSome (pattern : String) (ws : Nat → UpdateWorld) (n : String) :
    ∀ (ns : List String) (i : Nat) (c : RouteCache) (e : Nat),
      (((removeRoutesGo pattern ws i ns c e).cache n).isSome)
        = ((c n).isSome && !(removeBatchSucceedsFor pattern ws i ns c n)) := by
  intro ns
  induction ns with
  | nil => intro i c e; simp [removeRoutesGo, removeBatchSucceedsFor]
  | cons s rest ih =>
    intro i c e
    simp only [removeRoutesGo, removeBatchSucceedsFor]
    cases hc : c s with
    | none => simp only [hc]; exact ih i c e
    | some paths =>
      simp only [hc]
      cases hu : updateDataGroup pattern (ws i) paths true with
      | error msg =>
        simp only [hu]
        exact ih (i + 1) c (e + 1)
      | ok dg =>
        simp only [hu]
        rw [ih]
        by_cases hn : n = s
        · subst hn
          simp [cacheErase, hc]
        · have h1 : (n == s) = false := by simp [hn]
          have h2 : (s == n) = false := by simp [Ne.symm hn]
          simp [cacheErase, h1, h2]

theorem addRoutesGo_errs_pos (pattern : String) (ws : Nat → UpdateWorld) :
    ∀ (ss : List SwarmService) (i : Nat) (c : RouteCache) (e : Nat),
      (0 < (addRoutesGo pattern ws i ss c e).errs)
        ↔ (0 < e ∨ addBatchFailExists pattern ws i ss = true) := by
  intro ss
  induction ss with
  | nil => intro i c e; simp [addRoutesGo, addBatchFailExists]
  | cons s rest ih =>
    intro i c e
    simp only [addRoutesGo, addBatchFailExists]
    cases hl : List.lookup SERVICE_PATH_LABEL s.labels with
    | none => simp only [hl]; exact ih i c e
    | some label =>
      simp only [hl]
      cases hu : updateDataGroup pattern (ws i) (labelPaths label) false with
      | error msg =>
        simp only [hu, Except.isOk, Except.toBool]
        rw [ih (i + 1) c (e + 1)]
        simp
      | ok dg =>
        simp only [hu, Except.isOk, Except.toBool]
        rw [ih (i + 1) (cacheInsert c s.name (labelPaths label)) e]
        simp

theorem removeRoutesGo_errs_pos (pattern : String) (ws : Nat → UpdateWorld) :
    ∀ (ns : List String) (i : Nat) (c : RouteCache) (e : Nat),
      (0 < (removeRoutesGo pattern ws i ns c e).errs)
        ↔ (0 < e ∨ removeBatchFailExists pattern ws i ns c = true) := by
  intro ns
  induction ns with
  | nil => intro i c e; simp [removeRoutesGo, removeBatchFailExists]
  | cons s rest ih =>
    intro i c e
    simp only [removeRoutesGo, removeBatchFailExists]
    cases hc : c s with
    | none => simp only [hc]; exact ih i c e
    | some paths =>
      simp only [hc]
      cases hu : updateDataGroup pattern (ws i) paths true with
      | error msg =>
        simp only [hu]
        rw [ih (i + 1) c (e + 1)]
        simp
      | ok dg =>
        simp only [hu]
        exact ih (i + 1) (cacheErase c s) e

theorem addRoutesGo_cache_eq (pattern : String) (ws : Nat → UpdateWorld) (n : String) :
    ∀ (ss : List SwarmService) (i : Nat) (c : RouteCache) (e : Nat),
      addBatchSucceedsFor pattern ws i ss n = false →
      (addRoutesGo pattern ws i ss c e).cache n = c n := by
  intro ss
  induction ss with
  | nil => intro i c e h; rfl
  | cons s rest ih =>
    intro i c e h
    simp only [addBatchSucceedsFor] at h
    simp only [addRoutesGo]
    cases hl : List.lookup SERVICE_PATH_LABEL s.labels with
    | none =>
      simp only [hl]
      simp only [hl] at h
      exact ih i c e h
    | some label =>
      simp only [hl] at h
      simp only [hl]
      simp only [Bool.or_eq_false_iff, Bool.and_eq_false_iff] at h
      cases hu : updateDataGroup pattern (ws i) (labelPaths label) false with
      | error msg =>
        simp only [hu]
        exact ih (i + 1) c (e + 1) h.2
      | ok dg =>
        simp only [hu]
        rw [ih (i + 1) _ e h.2]
        have hne : (s.name == n) = false := by
          rcases h.1 with h1 | h1
          · exact h1
          · rw [hu] at h1; simp [Except.isOk, Except.toBool] at h1
        unfold cacheInsert
        have hnn : (n == s.name) = false := by
          simp only [beq_eq_false_iff_ne] at hne ⊢
          exact Ne.symm hne
        simp [hnn]

theorem removeRoutesGo_cache_eq (pattern : String) (ws : Nat → UpdateWorld) (n : String) :
    ∀ (ns : List String) (i : Nat) (c : RouteCache) (e : Nat),
      removeBatchSucceedsFor pattern ws i ns c n = false →
      (removeRoutesGo pattern ws i ns c e).cache n = c n := by
  intro ns
  induction ns with
  | nil => intro i c e h; rfl
  | cons s rest ih =>
    intro i c e h
    simp only [removeBatchSucceedsFor] at h
    simp only [removeRoutesGo]
    cases hc : c s with
    | none =>
      simp only [hc]
      simp only [hc] at h
      exact ih i c e h
    | some paths =>
      simp only [hc] at h
      simp only [hc]
      cases hu : updateDataGroup pattern (ws i) paths true with
      | error msg =>
        simp only [hu]
        simp only [hu] at h
        exact ih (i + 1) c (e + 1) h
      | ok dg =>
        simp only [hu]
        simp only [hu] at h
        simp only [Bool.or_eq_false_iff] at h
        rw [ih (i + 1) _ e h.2]
        have hns : (n == s) = false := by
          have := h.1
          simp only [beq_eq_false_iff_ne] at this ⊢
          exact Ne.symm this
        unfold cacheErase
        simp [hns]

theorem addRoutesGo_skip (pattern : String) (ws : Nat → UpdateWorld) :
    ∀ (ss : List SwarmService) (i : Nat) (c : RouteCache) (e : Nat),
      (∀ s ∈ ss, List.lookup SERVICE_PATH_LABEL s.labels = none) →
      addRoutesGo pattern ws i ss c e = ⟨c, e, i⟩ := by
  intro ss
  induction ss with
  | nil => intro i c e _; rfl
  | cons s rest ih =>
    intro i c e h
    have hs : List.lookup SERVICE_PATH_LABEL s.labels = none := h s (by simp)
    simp only [addRoutesGo, hs]
    exact ih i c e (fun t ht => h t (by simp [ht]))

theorem addRoutesGo_calls (pattern : String) (ws : Nat → UpdateWorld) :
    ∀ (ss : List SwarmService) (i : Nat) (c : RouteCache) (e : Nat),
      (addRoutesGo pattern ws i ss c e).calls = i + countLabeled ss := by
  intro ss
  induction ss with
  | nil => intro i c e; simp [addRoutesGo, countLabeled]
  | cons s rest ih =>
    intro i c e
    simp only [addRoutesGo, countLabeled]
    cases hl : List.lookup SERVICE_PATH_LABEL s.labels with
    | none => simp only [hl]; exact ih i c e
    | some label =>
      simp only [hl]
      cases hu : updateDataGroup pattern (ws i) (labelPaths label) false with
      | error msg =>
        simp only [hu]
        rw [ih (i + 1) c (e + 1)]
        omega
      | ok dg =>
        simp only [hu]
        rw [ih (i + 1) (cacheInsert c s.name (labelPaths label)) e]
        omega

theorem runOps_cache_isSome (pattern : String) (n : String) :
    ∀ (ops : List Op) (c : RouteCache),
      ((runOps pattern ops c) n).isSome
        = (addedAndNotRemoved pattern ops c n
            || ((c n).isSome && noRemoveSuccess pattern ops c n)) := by
  intro ops
  induction ops with
  | nil => intro c; simp [runOps, addedAndNotRemoved, noRemoveSuccess]
  | cons op rest ih =>
    intro c
    simp only [runOps, addedAndNotRemoved, noRemoveSuccess]
    rw [ih (applyOp pattern op c)]
    cases op with
    | add ws ss =>
      simp only [opAddSuccess, opRemoveSuccess, applyOp, AddRoutes]
      rw [addRoutesGo_cache_isSome]
      cases hA : addedAndNotRemoved pattern rest ((addRoutesGo pattern ws 0 ss c 0).cache) n <;>
        cases hB : addBatchSucceedsFor pattern ws 0 ss n <;>
          cases hC : (c n).isSome <;>
            cases hX : noRemoveSuccess pattern rest ((addRoutesGo pattern ws 0 ss c 0).cache) n <;>
              simp [hA, hB, hC, hX]
    | remove ws ns =>
      simp only [opAddSuccess, opRemoveSuccess, applyOp, RemoveRoutes]
      rw [removeRoutesGo_cache_isSome]
      cases hA : addedAndNotRemoved pattern rest ((removeRoutesGo pattern ws 0 ns c 0).cache) n <;>
        cases hR : removeBatchSucceedsFor pattern ws 0 ns c n <;>
          cases hC : (c n).isSome <;>
            cases hX : noRemoveSuccess pattern rest ((removeRoutesGo pattern ws 0 ns c 0).cache) n <;>
              simp [hA, hR, hC, hX]


theorem containsRecord_eq_true_iff (r : List Record) (rec : Record) :
    containsRecord r rec = true ↔ ∃ t ∈ r, t.name = rec.name := by
  induction r with
  | nil => simp [containsRecord]
  | cons t rest ih =>
    simp only [containsRecord]
    by_cases h : t.name = rec.name
    · simp [h]
    · have hb : (t.name == rec.name) = false := by simp [h]
      simp [hb, ih, h]

theorem removeRecordsGo_eq (r : List Record) :
    ∀ (f acc : List Record),
      removeRecordsGo acc f r = acc ++ f.filter (fun rec => !containsRecord r rec) := by
  intro f
  induction f with
  | nil => intro acc; simp [removeRecordsGo]
  | cons x rest ih =>
    intro acc
    simp only [removeRecordsGo]
    cases hx : containsRecord r x with
    | true => simp [hx, ih, List.filter_cons, hx]
    | false => simp [hx, ih, List.filter_cons, List.append_assoc]

/-- Claim C5: remove mode keeps exactly the fetched records whose name equals
no candidate record name, in their original order; record data plays no role
and every record sharing a removed name is removed. -/
theorem C5_remove_mode_filters_by_name (f r : List Record) :
    removeRecords f r = f.filter (fun rec => decide (∀ t ∈ r, t.name ≠ rec.name)) := by
  rw [removeRecords, removeRecordsGo_eq]
  simp only [List.nil_append]
  apply List.filter_congr
  intro rec _
  cases h : containsRecord r rec with
  | false =>
    simp only [Bool.not_false]
    symm
    rw [decide_eq_true_iff]
    intro t ht heq
    have hc := (containsRecord_eq_true_iff r rec).2 ⟨t, ht, heq⟩
    rw [hc] at h
    cases h
  | true =>
    simp only [Bool.not_true]
    symm
    rw [decide_eq_false_iff_not]
    intro hall
    obtain ⟨t, ht, heq⟩ := (containsRecord_eq_true_iff r rec).1 h
    exact hall t ht heq

/-- Claim C2: starting from an empty Route Cache, a service name is a key of
the cache after a sequence of AddRoutes and RemoveRoutes calls iff some
AddRoutes call successfully completed the route update for a service of that
name carrying the path label and no later RemoveRoutes call successfully
completed the removal for that name. -/
theorem C2_route_cache_invariant (pattern : String) (ops : List Op) (n : String) :
    ((runOps pattern ops cacheEmpty) n).isSome = addedAndNotRemoved pattern ops cacheEmpty n := by
  rw [runOps_cache_isSome]
  simp [cacheEmpty]

/-- Claim C1 counterexample: a service whose path label is present but whose
value normalizes to an empty path list (label value empty, so the only
segment is empty) still triggers one Route Update Protocol call, and on
success its name IS added to the Route Cache, contradicting the claim. -/
theorem C1_counterexample :
    (AddRoutes "p" (fun _ => okWorld) [⟨"svc", [(SERVICE_PATH_LABEL, "")]⟩] cacheEmpty).calls = 1
    ∧ (AddRoutes "p" (fun _ => okWorld) [⟨"svc", [(SERVICE_PATH_LABEL, "")]⟩] cacheEmpty).cache
        "svc" = some [""]
    ∧ getRecords (labelPaths "") "p" = [] :=
  ⟨rfl, rfl, rfl⟩

/-- Claim C1 as amended: only the absence of the path label skips a service
(no protocol call, no cache change); every service carrying the label makes
exactly one protocol call, whatever its label value normalizes to. -/
theorem C1_label_skip_amended (pattern : String) (ws : Nat → UpdateWorld)
    (ss : List SwarmService) (c : RouteCache) :
    ((∀ s ∈ ss, List.lookup SERVICE_PATH_LABEL s.labels = none) →
        AddRoutes pattern ws ss c = ⟨c, 0, 0⟩)
    ∧ (AddRoutes pattern ws ss c).calls = countLabeled ss := by
  constructor
  · intro h
    exact addRoutesGo_skip pattern ws ss 0 c 0 h
  · rw [AddRoutes, addRoutesGo_calls]
    simp

theorem C1_label_skip_amended_witness :
    AddRoutes "p" (fun _ => okWorld) [⟨"a", []⟩] cacheEmpty = ⟨cacheEmpty, 0, 0⟩
    ∧ (AddRoutes "p" (fun _ => okWorld) [⟨"a", []⟩] cacheEmpty).calls = countLabeled [⟨"a", []⟩] :=
  ⟨(C1_label_skip_amended "p" (fun _ => okWorld) [⟨"a", []⟩] cacheEmpty).1 (by decide),
   (C1_label_skip_amended "p" (fun _ => okWorld) [⟨"a", []⟩] cacheEmpty).2⟩

/-- Claim C3 counterexample: a GET response with the 2xx status 201 and a
perfectly decodable body is treated as a hard failure by updateDataGroup,
refuting that every 2xx status counts as success. -/
theorem C3_counterexample :
    (200 ≤ 201 ∧ 201 < 300)
    ∧ (updateDataGroup "p" ⟨.response 201 (some ⟨[]⟩), .response 200 ""⟩ ["/a"] false).isOk
        = false :=
  ⟨⟨by omega, by omega⟩, rfl⟩

/-- Claim C3 as amended: an updateDataGroup cycle succeeds iff the GET
returns status exactly 200 with a decodable body and the PUT returns status
exactly 200; every other outcome (any non-200 status, 2xx included, a GET
transport failure, an undecodable GET body, a PUT transport failure) is a
hard failure, and the PUT body is never parsed. -/
theorem C3_status_amended (pattern : String) (w : UpdateWorld) (paths : List String)
    (remove : Bool) :
    (updateDataGroup pattern w paths remove).isOk = true ↔
      ((∃ dg, w.getResult = .response 200 (some dg))
        ∧ ∃ s, w.putResult = .response 200 s) := by
  obtain ⟨gr, pr⟩ := w
  cases gr with
  | transportError => simp [updateDataGroup, Except.isOk, Except.toBool]
  | response status body =>
    by_cases hs : status = 200
    · subst hs
      cases body with
      | none => simp [updateDataGroup, Except.isOk, Except.toBool]
      | some dg =>
        cases pr with
        | transportError => simp [updateDataGroup, Except.isOk, Except.toBool]
        | response ps pb =>
          by_cases hp : ps = 200
          · subst hp
            simp [updateDataGroup, Except.isOk, Except.toBool]
          · simp [updateDataGroup, Except.isOk, Except.toBool, hp]
    · simp [updateDataGroup, Except.isOk, Except.toBool, hs]

/-- Claim C4: AddRoutes and RemoveRoutes process every item in their batch
regardless of earlier failures, return a non-nil error iff at least one item
failed, and an item that succeeds after another failure still gets its Route
Cache update applied. -/
theorem C4_batch_aggregation (pattern : String) (ws vs : Nat → UpdateWorld)
    (ss : List SwarmService) (ns : List String) (c d : RouteCache) (n m : String) :
    (0 < (AddRoutes pattern ws ss c).errs ↔ addBatchFailExists pattern ws 0 ss = true)
    ∧ (addBatchSucceedsFor pattern ws 0 ss n = true →
        ((AddRoutes pattern ws ss c).cache n).isSome = true)
    ∧ (0 < (RemoveRoutes pattern vs ns d).errs ↔ removeBatchFailExists pattern vs 0 ns d = true)
    ∧ (removeBatchSucceedsFor pattern vs 0 ns d m = true →
        (RemoveRoutes pattern vs ns d).cache m = none) := by
  refine ⟨?_, ?_, ?_, ?_⟩
  · rw [AddRoutes, addRoutesGo_errs_pos]
    simp
  · intro h
    rw [AddRoutes, addRoutesGo_cache_isSome]
    simp [h]
  · rw [RemoveRoutes, removeRoutesGo_errs_pos]
    simp
  · intro h
    cases hcm : (RemoveRoutes pattern vs ns d).cache m with
    | none => rfl
    | some v =>
      rw [RemoveRoutes] at hcm
      have hh := removeRoutesGo_cache_isSome pattern vs m ns 0 d 0
      rw [hcm, h] at hh
      simp at hh

theorem C4_batch_aggregation_witness :
    0 < (AddRoutes "p" (fun i => if i == 0 then failWorld else okWorld)
        [⟨"x", [(SERVICE_PATH_LABEL, "/x")]⟩, ⟨"y", [(SERVICE_PATH_LABEL, "/y")]⟩]
        cacheEmpty).errs
    ∧ ((AddRoutes "p" (fun i => if i == 0 then failWorld else okWorld)
        [⟨"x", [(SERVICE_PATH_LABEL, "/x")]⟩, ⟨"y", [(SERVICE_PATH_LABEL, "/y")]⟩]
        cacheEmpty).cache "y").isSome = true
    ∧ 0 < (RemoveRoutes "p" (fun i => if i == 0 then failWorld else okWorld) ["x", "y"]
        (cacheInsert (cacheInsert cacheEmpty "x" ["/x"]) "y" ["/y"])).errs
    ∧ (RemoveRoutes "p" (fun i => if i == 0 then failWorld else okWorld) ["x", "y"]
        (cacheInsert (cacheInsert cacheEmpty "x" ["/x"]) "y" ["/y"])).cache "y" = none :=
  ⟨(C4_batch_aggregation "p" (fun i => if i == 0 then failWorld else okWorld)
      (fun i => if i == 0 then failWorld else okWorld)
      [⟨"x", [(SERVICE_PATH_LABEL, "/x")]⟩, ⟨"y", [(SERVICE_PATH_LABEL, "/y")]⟩] ["x", "y"]
      cacheEmpty (cacheInsert (cacheInsert cacheEmpty "x" ["/x"]) "y" ["/y"]) "y" "y").1.mpr
      (by decide),
   (C4_batch_aggregation "p" (fun i => if i == 0 then failWorld else okWorld)
      (fun i => if i == 0 then failWorld else okWorld)
      [⟨"x", [(SERVICE_PATH_LABEL, "/x")]⟩, ⟨"y", [(SERVICE_PATH_LABEL, "/y")]⟩] ["x", "y"]
      cacheEmpty (cacheInsert (cacheInsert cacheEmpty "x" ["/x"]) "y" ["/y"]) "y" "y").2.1
      (by decide),
   (C4_batch_aggregation "p" (fun i => if i == 0 then failWorld else okWorld)
      (fun i => if i == 0 then failWorld else okWorld)
      [⟨"x", [(SERVICE_PATH_LABEL, "/x")]⟩, ⟨"y", [(SERVICE_PATH_LABEL, "/y")]⟩] ["x", "y"]
      cacheEmpty (cacheInsert (cacheInsert cacheEmpty "x" ["/x"]) "y" ["/y"]) "y" "y").2.2.1.mpr
      (by decide),
   (C4_batch_aggregation "p" (fun i => if i == 0 then failWorld else okWorld)
      (fun i => if i == 0 then failWorld else okWorld)
      [⟨"x", [(SERVICE_PATH_LABEL, "/x")]⟩, ⟨"y", [(SERVICE_PATH_LABEL, "/y")]⟩] ["x", "y"]
      cacheEmpty (cacheInsert (cacheInsert cacheEmpty "x" ["/x"]) "y" ["/y"]) "y" "y").2.2.2
      (by decide)⟩

/-- Claim C6: a service whose path label value is /Orders,/Billing yields
exactly the candidate records /orders and /billing with the backend pattern
as data (the label is lower-cased before the comma split), the PUT payload
appends them to the fetched collection, and a successful AddRoutes stores
the path list under the service name in the Route Cache. -/
theorem C6_multi_path_label (pattern n s : String) (c : RouteCache) (w : UpdateWorld)
    (dg : DataGroup)
    (hget : w.getResult = .response 200 (some dg))
    (hput : w.putResult = .response 200 s) :
    labelPaths "/Orders,/Billing" = ["/orders", "/billing"]
    ∧ getRecords (labelPaths "/Orders,/Billing") pattern
        = [⟨"/orders", pattern⟩, ⟨"/billing", pattern⟩]
    ∧ updateDataGroup pattern w (labelPaths "/Orders,/Billing") false
        = .ok ⟨dg.records ++ [⟨"/orders", pattern⟩, ⟨"/billing", pattern⟩]⟩
    ∧ (AddRoutes pattern (fun _ => w) [⟨n, [(SERVICE_PATH_LABEL, "/Orders,/Billing")]⟩] c).cache
        n = some ["/orders", "/billing"] := by
  have hpaths : labelPaths "/Orders,/Billing" = ["/orders", "/billing"] := rfl
  have hrec : getRecords (labelPaths "/Orders,/Billing") pattern
      = [⟨"/orders", pattern⟩, ⟨"/billing", pattern⟩] := rfl
  have hupd : updateDataGroup pattern w (labelPaths "/Orders,/Billing") false
      = .ok ⟨dg.records ++ [⟨"/orders", pattern⟩, ⟨"/billing", pattern⟩]⟩ := by
    rw [updateDataGroup, hget]
    simp only [beq_self_eq_true, if_true]
    rw [hput]
    simp [hrec]
  refine ⟨hpaths, hrec, hupd, ?_⟩
  rw [AddRoutes, addRoutesGo]
  have hl : List.lookup SERVICE_PATH_LABEL
      [(SERVICE_PATH_LABEL, "/Orders,/Billing")] = some "/Orders,/Billing" := by
    simp [List.lookup]
  simp only [hl, hupd]
  rw [addRoutesGo]
  simp [cacheInsert, hpaths]

theorem C6_multi_path_label_witness :
    labelPaths "/Orders,/Billing" = ["/orders", "/billing"]
    ∧ getRecords (labelPaths "/Orders,/Billing") "pat"
        = [⟨"/orders", "pat"⟩, ⟨"/billing", "pat"⟩]
    ∧ updateDataGroup "pat" okWorld (labelPaths "/Orders,/Billing") false
        = .ok ⟨[] ++ [⟨"/orders", "pat"⟩, ⟨"/billing", "pat"⟩]⟩
    ∧ (AddRoutes "pat" (fun _ => okWorld)
        [⟨"web", [(SERVICE_PATH_LABEL, "/Orders,/Billing")]⟩] cacheEmpty).cache "web"
        = some ["/orders", "/billing"] :=
  C6_multi_path_label "pat" "web" "" cacheEmpty okWorld ⟨[]⟩ rfl rfl

/-- Claim C7: when no update attempt for a given service name succeeds in an
AddRoutes call (in particular when its Route Update Protocol cycle fails),
and when no removal attempt for a name succeeds in a RemoveRoutes call, the
Route Cache entry for that name afterwards is exactly what it was before the
call began. -/
theorem C7_failed_update_preserves_cache (pattern : String) (ws vs : Nat → UpdateWorld)
    (ss : List SwarmService) (ns : List String) (c : RouteCache) (n m : String) :
    (addBatchSucceedsFor pattern ws 0 ss n = false →
        (AddRoutes pattern ws ss c).cache n = c n)
    ∧ (removeBatchSucceedsFor pattern vs 0 ns c m = false →
        (RemoveRoutes pattern vs ns c).cache m = c m) :=
  ⟨fun h => addRoutesGo_cache_eq pattern ws n ss 0 c 0 h,
   fun h => removeRoutesGo_cache_eq pattern vs m ns 0 c 0 h⟩

theorem C7_failed_update_preserves_cache_witness :
    ((AddRoutes "p" (fun _ => failWorld) [⟨"n", [(SERVICE_PATH_LABEL, "/n")]⟩]
        (cacheInsert cacheEmpty "m" ["/m"])).cache "n"
      = cacheInsert cacheEmpty "m" ["/m"] "n")
    ∧ ((RemoveRoutes "p" (fun _ => failWorld) ["m"]
        (cacheInsert cacheEmpty "m" ["/m"])).cache "m"
      = cacheInsert cacheEmpty "m" ["/m"] "m") :=
  ⟨(C7_failed_update_preserves_cache "p" (fun _ => failWorld) (fun _ => failWorld)
      [⟨"n", [(SERVICE_PATH_LABEL, "/n")]⟩] ["m"]
      (cacheInsert cacheEmpty "m" ["/m"]) "n" "m").1 (by decide),
   (C7_failed_update_preserves_cache "p" (fun _ => failWorld) (fun _ => failWorld)
      [⟨"n", [(SERVICE_PATH_LABEL, "/n")]⟩] ["m"]
      (cacheInsert cacheEmpty "m" ["/m"]) "n" "m").2 (by decide)⟩

/-- Claim C8 counterexample: an iteration in which every external
collaborator succeeds but the route-store update inside AddRoutes fails
emits no error-metric event at all, although AddRoutes returned an error:
route-store update failures are not reported through the error-counting
side channel. -/
theorem C8_counterexample :
    0 < (AddRoutes "p" exampleIteration.addWorlds exampleIteration.newServices cacheEmpty).errs
    ∧ ((iteration "p" exampleIteration cacheEmpty).2.any isRecordError) = false :=
  ⟨by decide, rfl⟩

/-- Claim C8 as amended: snapshot-fetch, diff and notification failures are
each reported through exactly one error-metric call and an error-metric
event occurs iff one of those four collaborator errors occurred — route-store
update failures from AddRoutes and RemoveRoutes are never reported (their
returned errors are discarded); no error aborts the iteration: both route
calls still run and the iteration completes. -/
theorem C8_error_metrics_amended (pattern : String) (w : IterationWorld) (c : RouteCache) :
    ((iteration pattern w c).2.any isRecordError
        = (w.getServicesErr || w.getNewServicesErr || w.servicesCreateErr
            || w.servicesRemoveErr))
    ∧ (Event.recordError "GetServices" ∈ (iteration pattern w c).2 ↔ w.getServicesErr = true)
    ∧ (Event.recordError "GetNewServices" ∈ (iteration pattern w c).2
        ↔ w.getNewServicesErr = true)
    ∧ (Event.recordError "ServicesCreate" ∈ (iteration pattern w c).2
        ↔ w.servicesCreateErr = true)
    ∧ (Event.recordError "ServicesRemove" ∈ (iteration pattern w c).2
        ↔ w.servicesRemoveErr = true)
    ∧ Event.addRoutesCall ∈ (iteration pattern w c).2
    ∧ Event.removeRoutesCall ∈ (iteration pattern w c).2
    ∧ (iteration pattern w c).1
        = (RemoveRoutes pattern w.removeWorlds w.removedServices
            (AddRoutes pattern w.addWorlds w.newServices c).cache).cache := by
  obtain ⟨g1, g2, g3, g4, nsv, rsv, aw, rmw, cnt⟩ := w
  cases g1 <;> cases g2 <;> cases g3 <;> cases g4 <;>
    simp [iteration, isRecordError]

/-- Claim C9: the Route Synchronizer reads its secret from the path in
DF_BIGIP_KEY_FILE, defaulting to /run/secrets/bigip-key when unset, storing
the content trimmed of surrounding whitespace; construction succeeds iff the
configuration-API URL is set, the secret file is readable and the
configuration GET returns status 200 with a parsable document — each failure
(missing URL, unreadable file, non-200 response, unparsable document)
terminates startup. -/
theorem C9_startup (world : StartupWorld) :
    ((NewBigIpFromEnv world).isOk = true ↔
      ((world.env "DF_CONFIG_API").length ≠ 0
        ∧ (world.readFile (if (world.env "DF_BIGIP_KEY_FILE").length == 0 then BIGIP_KEY_FILE
            else world.env "DF_BIGIP_KEY_FILE")).isSome = true
        ∧ ∃ config, world.httpGet (world.env "DF_CONFIG_API") = .response 200 (some config)))
    ∧ (∀ b content,
        NewBigIpFromEnv world = .ok b →
        world.readFile (if (world.env "DF_BIGIP_KEY_FILE").length == 0 then BIGIP_KEY_FILE
            else world.env "DF_BIGIP_KEY_FILE") = some content →
        b.key = trimSpace content) := by
  unfold NewBigIpFromEnv NewBigIp readConfig
  by_cases hapi : (world.env "DF_CONFIG_API").length = 0
  · simp [hapi, Except.isOk, Except.toBool]
  · have hapi2 : ((world.env "DF_CONFIG_API").length == 0) = false := by
      simp [hapi]
    simp only [hapi2, Bool.false_eq_true, if_false]
    cases hrf : world.readFile (if (world.env "DF_BIGIP_KEY_FILE").length == 0 then
        BIGIP_KEY_FILE else world.env "DF_BIGIP_KEY_FILE") with
    | none => simp [hrf, Except.isOk, Except.toBool, hapi]
    | some content0 =>
      simp only [hrf]
      cases hhg : world.httpGet (world.env "DF_CONFIG_API") with
      | transportError => simp [hhg, Except.isOk, Except.toBool, hapi]
      | response status body =>
        by_cases hst : status = 200
        · subst hst
          cases body with
          | none => simp [hhg, Except.isOk, Except.toBool, hapi]
          | some config =>
            simp only [hhg]
            constructor
            · simp [Except.isOk, Except.toBool, hapi]
            · intro b content hb hcontent
              have hcc : content0 = content := Option.some.inj hcontent
              subst hcc
              simp only [bne_self_eq_false, Bool.false_eq_true, if_false] at hb
              cases hb
              rfl
        · have hst2 : (status != 200) = true := by simp [hst]
          simp only [hhg, hst2, if_true]
          simp [Except.isOk, Except.toBool, hapi, hst]

theorem C9_startup_witness :
    (NewBigIpFromEnv exampleStartup).isOk = true
    ∧ keyOf (NewBigIpFromEnv exampleStartup) = some (trimSpace "  key-value  ") := by
  have h := C9_startup exampleStartup
  have hok : (NewBigIpFromEnv exampleStartup).isOk = true := by
    apply h.1.mpr
    refine ⟨by decide, by decide, ⟨⟨"host", "dg", "pat"⟩, by decide⟩⟩
  refine ⟨hok, ?_⟩
  cases hb : NewBigIpFromEnv exampleStartup with
  | error e => rw [hb] at hok; simp [Except.isOk, Except.toBool] at hok
  | ok b =>
    have hkey := h.2 b "  key-value  " hb (by decide)
    simp [keyOf, hkey]

/-- Claim C10: the reconciliation loop body runs only when the configured
create-notification endpoint address is non-empty; with an empty address no
iteration is ever performed — the Route Cache stays empty and no collaborator
event is ever emitted. -/
theorem C10_loop_guard (pattern addr : String) (ws : Nat → IterationWorld) (fuel : Nat) :
    (addr.length = 0 → mainRun pattern addr ws fuel = (cacheEmpty, []))
    ∧ (0 < addr.length → mainRun pattern addr ws fuel
        = runIterations pattern ws 0 fuel cacheEmpty) := by
  constructor
  · intro h
    rw [mainRun]
    simp [h]
  · intro h
    rw [mainRun]
    simp [h]

theorem C10_loop_guard_witness :
    mainRun "p" "" (fun _ => exampleIteration) 3 = (cacheEmpty, [])
    ∧ mainRun "p" "x" (fun _ => exampleIteration) 3
        = runIterations "p" (fun _ => exampleIteration) 0 3 cacheEmpty :=
  ⟨(C10_loop_guard "p" "" (fun _ => exampleIteration) 3).1 (by decide),
   (C10_loop_guard "p" "x" (fun _ => exampleIteration) 3).2 (by decide)⟩

end DFSL
